import Mathlib

/-!
# Verification of the AAUL host-management agent

A shallow embedding, in Lean 4, of the control-plane operations of the
AAUL agent (firewall reconciliation, session store, authentication,
request signing, self-update, package-update cycle and command
dispatch), each definition translated from the corresponding Python
function of the repository, together with theorems settling the frozen
claims about the behaviour of the agent.

External effects (firewall backend commands, PAM/shadow backends,
subprocess execution, clocks, token generators) are passed in explicitly
as environment records, so every definition is executable on concrete
inputs.
-/

namespace AAUL

/-! ## Firewall controller (src/agent/app/lib/firewall.py)

`FirewallManager` detects one of {ufw, firewalld, iptables, none} at
construction, and `open_port` / `close_port` / `update_port` drive the
backend while tracking the set of ports the agent itself opened.
The backend subprocess calls (`_ufw_open_port`, `_firewalld_open_port`,
`_iptables_open_port` and the closing counterparts) are abstracted as an
environment oracle giving each call an outcome (success, message); the
actual firewall rule set is carried in the state, and a trace of backend
invocations is recorded so that ordering claims can be stated. -/

/-- The firewall implementation detected by `_detect_firewall`. -/
inductive FwKind where
  | ufw
  | firewalld
  | iptables
deriving DecidableEq, Repr

/-- One tracked entry `{"port": port, "protocol": protocol}`. -/
structure PortEntry where
  port : Nat
  protocol : String
deriving DecidableEq, Repr

/-- A backend invocation, recorded for ordering claims. -/
inductive FwEvent where
  | backendOpen (port : Nat) (protocol : String)
  | backendClose (port : Nat) (protocol : String)
deriving DecidableEq, Repr

/-- The state a `FirewallManager` acts on: the detected firewall type,
the tracked `opened_ports` list (persisted in the JSON state file), and
the actual rule set held by the underlying firewall. -/
structure FwState where
  firewall_type : Option FwKind
  opened_ports : List PortEntry
  rules : List PortEntry
deriving DecidableEq, Repr

/-- Outcomes of the backend commands: `openResult p proto` is the
(success, message) pair the per-backend open helper returns, likewise
`closeResult` for the close helpers. -/
structure FwEnv where
  openResult : Nat → String → Bool × String
  closeResult : Nat → String → Bool × String

/-- Result of a firewall operation: the returned (success, message)
pair, the post state, and the backend calls made. -/
structure FwOpResult where
  success : Bool
  message : String
  state : FwState
  trace : List FwEvent
deriving Repr

/-- `FirewallManager.open_port`: with no firewall, succeed without any
backend call; otherwise run the backend open helper, and on success add
the rule and track the entry (appending only when absent). -/
def open_port (env : FwEnv) (s : FwState) (port : Nat) (protocol : String) : FwOpResult :=
  match s.firewall_type with
  | none => { success := true, message := "Aucun firewall actif", state := s, trace := [] }
  | some _ =>
    let r := env.openResult port protocol
    let entry : PortEntry := ⟨port, protocol⟩
    if r.1 then
      { success := true
        message := r.2
        state :=
          { s with
            rules := if entry ∈ s.rules then s.rules else s.rules ++ [entry]
            opened_ports :=
              if entry ∈ s.opened_ports then s.opened_ports
              else s.opened_ports ++ [entry] }
        trace := [FwEvent.backendOpen port protocol] }
    else
      { success := false, message := r.2, state := s
        trace := [FwEvent.backendOpen port protocol] }

/-- `FirewallManager.close_port`: with no firewall, succeed without any
backend call; otherwise run the backend close helper, and on success
drop the rule and untrack the entry. -/
def close_port (env : FwEnv) (s : FwState) (port : Nat) (protocol : String) : FwOpResult :=
  match s.firewall_type with
  | none => { success := true, message := "Aucun firewall actif", state := s, trace := [] }
  | some _ =>
    let r := env.closeResult port protocol
    let entry : PortEntry := ⟨port, protocol⟩
    if r.1 then
      { success := true
        message := r.2
        state :=
          { s with
            rules := s.rules.erase entry
            opened_ports :=
              if entry ∈ s.opened_ports then s.opened_ports.erase entry
              else s.opened_ports }
        trace := [FwEvent.backendClose port protocol] }
    else
      { success := false, message := r.2, state := s
        trace := [FwEvent.backendClose port protocol] }

/-- `FirewallManager.update_port`: equal ports short-circuit; otherwise
open the new port first, fail early if that fails, then close the old
port and report success regardless of the close outcome. -/
def update_port (env : FwEnv) (s : FwState) (old_port new_port : Nat)
    (protocol : String) : FwOpResult :=
  if old_port = new_port then
    { success := true, message := "Port inchangé", state := s, trace := [] }
  else
    let o := open_port env s new_port protocol
    if o.success then
      let c := close_port env o.state old_port protocol
      { success := true
        message := "Port changé de " ++ toString old_port ++ " à " ++ toString new_port
        state := c.state
        trace := o.trace ++ c.trace }
    else
      { success := false
        message := "Échec ouverture nouveau port: " ++ o.message
        state := o.state
        trace := o.trace }

/-- A port is reachable: either no firewall filters traffic at all
(`open_port` logs "port accessible par défaut" in that case), or the
rule set holds an accept rule for it. -/
def port_open (s : FwState) (port : Nat) (protocol : String) : Prop :=
  s.firewall_type = none ∨ (⟨port, protocol⟩ : PortEntry) ∈ s.rules

instance (s : FwState) (port : Nat) (protocol : String) :
    Decidable (port_open s port protocol) := by
  unfold port_open; infer_instance

/-- C10: `update_port(p, p)` returns success with message "Port
inchangé", makes no backend call and leaves the state (rules and
tracked ports alike) unchanged. -/
theorem update_port_same_port (env : FwEnv) (s : FwState) (p : Nat) (protocol : String) :
    update_port env s p p protocol =
      { success := true, message := "Port inchangé", state := s, trace := [] } := by
  simp [update_port]

/-- C6: for `old ≠ new`, `update_port` (i) succeeds and leaves the new
port open whenever opening the new port works (including the
no-firewall case), (ii) when closing the old port fails it still
reports success with the new rule in place, (iii) when opening the new
port fails it reports failure and never attempts the close, and (iv)
whenever a close is attempted, the backend trace is exactly the open of
the new port followed by the close of the old one. -/
theorem update_port_open_before_close (env : FwEnv) (s : FwState)
    (old_port new_port : Nat) (protocol : String) (hne : old_port ≠ new_port) :
    ((s.firewall_type = none ∨ (env.openResult new_port protocol).1 = true) →
      (update_port env s old_port new_port protocol).success = true ∧
      port_open (update_port env s old_port new_port protocol).state new_port protocol) ∧
    (s.firewall_type ≠ none → (env.openResult new_port protocol).1 = true →
      (env.closeResult old_port protocol).1 = false →
      (update_port env s old_port new_port protocol).success = true ∧
      (⟨new_port, protocol⟩ : PortEntry) ∈
        (update_port env s old_port new_port protocol).state.rules) ∧
    (s.firewall_type ≠ none → (env.openResult new_port protocol).1 = false →
      (update_port env s old_port new_port protocol).success = false ∧
      FwEvent.backendClose old_port protocol ∉
        (update_port env s old_port new_port protocol).trace) ∧
    (FwEvent.backendClose old_port protocol ∈
        (update_port env s old_port new_port protocol).trace →
      (update_port env s old_port new_port protocol).trace =
        [FwEvent.backendOpen new_port protocol, FwEvent.backendClose old_port protocol]) := by
  have hentry : (⟨new_port, protocol⟩ : PortEntry) ≠ ⟨old_port, protocol⟩ :=
    fun h => hne (congrArg PortEntry.port h).symm
  obtain ⟨ft, opened, rules⟩ := s
  cases ft with
  | none =>
    refine ⟨fun _ => ?_, fun hcontra _ _ => absurd rfl hcontra,
      fun hcontra _ => absurd rfl hcontra, fun hmem => ?_⟩
    · exact ⟨by simp [update_port, hne, open_port, close_port],
        by simp [update_port, hne, open_port, close_port, port_open]⟩
    · simp [update_port, hne, open_port, close_port] at hmem
  | some k =>
    cases hopen : (env.openResult new_port protocol).1 with
    | false =>
      refine ⟨fun hsucc => ?_, fun _ h _ => ?_, fun _ _ => ?_, fun hmem => ?_⟩
      · rcases hsucc with h | h
        · simp at h
        · simp at h
      · simp at h
      · exact ⟨by simp [update_port, hne, open_port, hopen],
          by simp [update_port, hne, open_port, hopen]⟩
      · simp [update_port, hne, open_port, hopen] at hmem
    | true =>
      have hrule : (⟨new_port, protocol⟩ : PortEntry) ∈
          (open_port env ⟨some k, opened, rules⟩ new_port protocol).state.rules := by
        by_cases hmem : (⟨new_port, protocol⟩ : PortEntry) ∈ rules <;>
          simp [open_port, hopen, hmem]
      cases hclose : (env.closeResult old_port protocol).1 with
      | false =>
        refine ⟨fun _ => ?_, fun _ _ _ => ?_, fun _ h => ?_, fun _ => ?_⟩
        · refine ⟨by simp [update_port, hne, open_port, close_port, hopen, hclose],
            Or.inr ?_⟩
          simp only [update_port, hne, if_neg, open_port, hopen] at hrule ⊢
          simpa [close_port, hclose] using hrule
        · refine ⟨by simp [update_port, hne, open_port, close_port, hopen, hclose], ?_⟩
          simp only [update_port, hne, if_neg, open_port, hopen] at hrule ⊢
          simpa [close_port, hclose] using hrule
        · simp at h
        · simp [update_port, hne, open_port, close_port, hopen, hclose]
      | true =>
        refine ⟨fun _ => ?_, fun _ _ h => ?_, fun _ h => ?_, fun _ => ?_⟩
        · refine ⟨by simp [update_port, hne, open_port, close_port, hopen, hclose],
            Or.inr ?_⟩
          simp only [update_port, hne, if_neg, open_port, hopen] at hrule ⊢
          simp only [close_port, hclose] at hrule ⊢
          simp only [if_pos] at hrule ⊢
          exact (List.mem_erase_of_ne hentry).mpr (by simpa using hrule)
        · simp at h
        · simp at h
        · simp [update_port, hne, open_port, close_port, hopen, hclose]

/-- Witness for C6 at a concrete input: active ufw firewall, backend
open succeeds, backend close fails; changing 8080 to 8090 succeeds and
leaves 8090 in the rule set. -/
theorem update_port_open_before_close_witness :
    (update_port ⟨fun _ _ => (true, "ok"), fun _ _ => (false, "err")⟩
        ⟨some FwKind.ufw, [⟨8080, "tcp"⟩], [⟨8080, "tcp"⟩]⟩ 8080 8090 "tcp").success = true ∧
    (⟨8090, "tcp"⟩ : PortEntry) ∈
      (update_port ⟨fun _ _ => (true, "ok"), fun _ _ => (false, "err")⟩
        ⟨some FwKind.ufw, [⟨8080, "tcp"⟩], [⟨8080, "tcp"⟩]⟩ 8080 8090 "tcp").state.rules := by
  have h := update_port_open_before_close
    ⟨fun _ _ => (true, "ok"), fun _ _ => (false, "err")⟩
    ⟨some FwKind.ufw, [⟨8080, "tcp"⟩], [⟨8080, "tcp"⟩]⟩ 8080 8090 "tcp" (by decide)
  exact h.2.1 (by simp) rfl rfl

/-- Counterexample to C7 as stated: with no active firewall,
`open_port` twice on (8080, tcp) succeeds both times and changes
nothing, but the tracked `opened_ports` afterwards contains zero
entries for that port, not exactly one. -/
theorem open_port_twice_counterexample :
    (open_port ⟨fun _ _ => (true, "ok"), fun _ _ => (true, "ok")⟩
        ⟨none, [], []⟩ 8080 "tcp").success = true ∧
    (open_port ⟨fun _ _ => (true, "ok"), fun _ _ => (true, "ok")⟩
        (open_port ⟨fun _ _ => (true, "ok"), fun _ _ => (true, "ok")⟩
          ⟨none, [], []⟩ 8080 "tcp").state 8080 "tcp").success = true ∧
    (open_port ⟨fun _ _ => (true, "ok"), fun _ _ => (true, "ok")⟩
        ⟨none, [], []⟩ 8080 "tcp").state.opened_ports.count ⟨8080, "tcp"⟩ = 0 := by
  decide

/-- C7 (amended): when a firewall is active, the backend open for
(p, proto) succeeds, and the tracked list holds at most one entry for
(p, proto), then `open_port` twice succeeds both times, the second call
leaves the state unchanged, and the tracked list afterwards holds
exactly one entry for (p, proto). -/
theorem open_port_idempotent (env : FwEnv) (s : FwState) (p : Nat) (proto : String)
    (hft : s.firewall_type ≠ none)
    (hok : (env.openResult p proto).1 = true)
    (hcount : s.opened_ports.count ⟨p, proto⟩ ≤ 1) :
    (open_port env s p proto).success = true ∧
    (open_port env (open_port env s p proto).state p proto).success = true ∧
    (open_port env (open_port env s p proto).state p proto).state =
      (open_port env s p proto).state ∧
    (open_port env s p proto).state.opened_ports.count ⟨p, proto⟩ = 1 := by
  obtain ⟨ft, opened, rules⟩ := s
  cases ft with
  | none => exact absurd rfl hft
  | some k =>
    by_cases hmem : (⟨p, proto⟩ : PortEntry) ∈ opened
    · have hone : opened.count (⟨p, proto⟩ : PortEntry) = 1 := by
        have h1 := List.count_pos_iff.mpr hmem
        have h2 : opened.count (⟨p, proto⟩ : PortEntry) ≤ 1 := hcount
        omega
      by_cases hrmem : (⟨p, proto⟩ : PortEntry) ∈ rules
      · simp [open_port, hok, hmem, hrmem, hone]
      · simp [open_port, hok, hmem, hrmem, hone]
    · have hzero : opened.count (⟨p, proto⟩ : PortEntry) = 0 :=
        List.count_eq_zero.mpr hmem
      by_cases hrmem : (⟨p, proto⟩ : PortEntry) ∈ rules
      · simp [open_port, hok, hmem, hrmem, hzero]
      · simp [open_port, hok, hmem, hrmem, hzero]

/-- Witness for the amended C7 theorem at a concrete input: active ufw
firewall, backend succeeds, entry initially untracked. -/
theorem open_port_idempotent_witness :
    (open_port ⟨fun _ _ => (true, "ok"), fun _ _ => (true, "ok")⟩
        ⟨some FwKind.ufw, [], []⟩ 8080 "tcp").success = true ∧
    (open_port ⟨fun _ _ => (true, "ok"), fun _ _ => (true, "ok")⟩
        (open_port ⟨fun _ _ => (true, "ok"), fun _ _ => (true, "ok")⟩
          ⟨some FwKind.ufw, [], []⟩ 8080 "tcp").state 8080 "tcp").success = true ∧
    (open_port ⟨fun _ _ => (true, "ok"), fun _ _ => (true, "ok")⟩
        (open_port ⟨fun _ _ => (true, "ok"), fun _ _ => (true, "ok")⟩
          ⟨some FwKind.ufw, [], []⟩ 8080 "tcp").state 8080 "tcp").state =
      (open_port ⟨fun _ _ => (true, "ok"), fun _ _ => (true, "ok")⟩
        ⟨some FwKind.ufw, [], []⟩ 8080 "tcp").state ∧
    (open_port ⟨fun _ _ => (true, "ok"), fun _ _ => (true, "ok")⟩
        ⟨some FwKind.ufw, [], []⟩ 8080 "tcp").state.opened_ports.count ⟨8080, "tcp"⟩ = 1 :=
  open_port_idempotent ⟨fun _ _ => (true, "ok"), fun _ _ => (true, "ok")⟩
    ⟨some FwKind.ufw, [], []⟩ 8080 "tcp" (by decide) rfl (by decide)

/-! ## Session store (src/agent/app/lib/pam_auth.py, session part)

The module-level dictionary of sessions is token-keyed; we embed it as
an association list in insertion order, with dictionary assignment as
update-in-place or append. Clock readings (`time.time()`) are passed in
explicitly, and the token produced by `secrets.token_urlsafe` is a
parameter. -/

/-- `SESSION_TIMEOUT`: fixed session lifetime, one hour. -/
def SESSION_TIMEOUT : Int := 3600

/-- One stored session. -/
structure Session where
  username : String
  created : Int
  expires : Int
  last_access : Int
deriving DecidableEq, Repr

/-- The session dictionary as an association list. -/
abbrev Sessions := List (String × Session)

/-- Dictionary membership test and read for a token. -/
def sessions_lookup (sessions : Sessions) (token : String) : Option Session :=
  (sessions.find? (fun q => q.1 == token)).map Prod.snd

/-- Dictionary assignment: overwrite in place when the key exists,
append otherwise. -/
def sessions_set : Sessions → String → Session → Sessions
  | [], token, sess => [(token, sess)]
  | q :: qs, token, sess =>
    if q.1 == token then (token, sess) :: qs
    else q :: sessions_set qs token sess

/-- `cleanup_sessions`: drop every entry whose expiry has passed. -/
def cleanup_sessions (now : Int) (sessions : Sessions) : Sessions :=
  sessions.filter (fun q => !decide (now > q.2.expires))

/-- `create_session`: store a fresh session expiring `SESSION_TIMEOUT`
from now under the generated token, then sweep expired sessions. -/
def create_session (sessions : Sessions) (username token : String) (now : Int) :
    String × Sessions :=
  let sessions' := sessions_set sessions token
    { username := username, created := now, expires := now + SESSION_TIMEOUT,
      last_access := now }
  (token, cleanup_sessions now sessions')

/-- `validate_session`: empty or unknown tokens fail; a token whose
expiry has passed is deleted and fails; otherwise the expiry slides to
`now + SESSION_TIMEOUT` and the username is returned. -/
def validate_session (sessions : Sessions) (token : String) (now : Int) :
    Option String × Sessions :=
  if token = "" then (none, sessions)
  else
    match sessions_lookup sessions token with
    | none => (none, sessions)
    | some sess =>
      if now > sess.expires then
        (none, sessions.filter (fun q => !(q.1 == token)))
      else
        (some sess.username,
          sessions_set sessions token
            { sess with last_access := now, expires := now + SESSION_TIMEOUT })

lemma sessions_lookup_set (ss : Sessions) (tok : String) (s : Session) :
    sessions_lookup (sessions_set ss tok s) tok = some s := by
  induction ss with
  | nil => simp [sessions_set, sessions_lookup]
  | cons q qs ih =>
    by_cases hq : q.1 == tok
    · simp [sessions_set, sessions_lookup, hq]
    · simpa [sessions_set, sessions_lookup, hq] using ih

lemma sessions_lookup_filter (ss : Sessions) (tok : String)
    (g : String × Session → Bool) (s : Session)
    (h : sessions_lookup ss tok = some s) (hg : g (tok, s) = true) :
    sessions_lookup (ss.filter g) tok = some s := by
  induction ss with
  | nil => simp [sessions_lookup] at h
  | cons q qs ih =>
    by_cases hq : q.1 == tok
    · have hkey : q.1 = tok := by simpa using hq
      have hval : q.2 = s := by
        simpa [sessions_lookup, List.find?, hq] using h
      have hgq : g q = true := by
        have hpair : q = (tok, s) := by
          cases q; simp_all
        rw [hpair]; exact hg
      simp [sessions_lookup, List.filter, hgq, List.find?, hq, hval]
    · have htail : sessions_lookup qs tok = some s := by
        simpa [sessions_lookup, List.find?, hq] using h
      by_cases hgq : g q = true
      · simpa [sessions_lookup, List.filter, hgq, List.find?, hq] using ih htail
      · simpa [sessions_lookup, List.filter, hgq] using ih htail

/-- Counterexample to C5 as stated: a session expiring at time 100,
validated exactly at time 100, validates successfully, although
the condition now < expiresAt does not hold there — the code accepts
now = expiresAt because it only rejects when now > expires. -/
theorem validate_session_boundary_counterexample :
    (validate_session
        [("tok", { username := "alice", created := 0, expires := 100, last_access := 0 })]
        "tok" 100).1 = some "alice" ∧
    ¬ (100 : Int) < 100 := by
  constructor
  · rfl
  · decide

/-- C5 (amended): a session is valid iff `now ≤ expiresAt` (the token
is nonempty, present, and its expiry has not strictly passed); a token
returned by `create_session` validates successfully immediately;
validation fails once the expiry has strictly passed; every successful
validation slides the stored expiry to `now + SESSION_TIMEOUT`. -/
theorem validate_session_spec (sessions : Sessions) (token : String) (now : Int) :
    ((validate_session sessions token now).1.isSome = true ↔
      token ≠ "" ∧ ∃ sess, sessions_lookup sessions token = some sess ∧
        now ≤ sess.expires) ∧
    (∀ sess, sessions_lookup sessions token = some sess → now > sess.expires →
      (validate_session sessions token now).1 = none) ∧
    (∀ sess, sessions_lookup sessions token = some sess → token ≠ "" →
      now ≤ sess.expires →
      (validate_session sessions token now).1 = some sess.username ∧
      ∃ sess', sessions_lookup (validate_session sessions token now).2 token = some sess' ∧
        sess'.expires = now + SESSION_TIMEOUT) ∧
    (∀ username, token ≠ "" →
      (validate_session (create_session sessions username token now).2 token now).1 =
        some username) := by
  refine ⟨?_, ?_, ?_, ?_⟩
  · by_cases htok : token = ""
    · simp [validate_session, htok]
    · cases hlk : sessions_lookup sessions token with
      | none => simp [validate_session, htok, hlk]
      | some sess =>
        by_cases hexp : now > sess.expires
        · simp only [validate_session, htok, if_neg, hlk, hexp, if_pos]
          constructor
          · intro hcontra; simp at hcontra
          · rintro ⟨-, sess', hsess', hle⟩
            cases hsess'
            exact absurd hle (by omega)
        · simp only [validate_session, htok, if_neg, hlk, hexp, if_neg]
          refine ⟨fun _ => ⟨htok, sess, rfl, by omega⟩, fun _ => rfl⟩
  · intro sess hlk hexp
    by_cases htok : token = ""
    · simp [validate_session, htok]
    · simp [validate_session, htok, hlk, hexp]
  · intro sess hlk htok hle
    have hexp : ¬ now > sess.expires := by omega
    refine ⟨by simp [validate_session, htok, hlk, hexp], ?_⟩
    refine ⟨{ sess with last_access := now, expires := now + SESSION_TIMEOUT }, ?_, rfl⟩
    simp only [validate_session, htok, if_neg, hlk, hexp, if_neg]
    exact sessions_lookup_set sessions token _
  · intro username htok
    have hset := sessions_lookup_set sessions token
      { username := username, created := now, expires := now + SESSION_TIMEOUT,
        last_access := now }
    have htimeout : ¬ now > now + SESSION_TIMEOUT := by
      simp only [SESSION_TIMEOUT]; omega
    have hclean : sessions_lookup (create_session sessions username token now).2 token =
        some { username := username, created := now,
               expires := now + SESSION_TIMEOUT, last_access := now } := by
      unfold create_session
      exact sessions_lookup_filter _ token _ _ hset (by simpa using htimeout)
    simp [validate_session, htok, hclean, htimeout]

/-- Witness for the amended C5 theorem at concrete inputs: one stored
session validated before expiry, an unknown token rejected, and a
freshly created session validated at creation time. -/
theorem validate_session_spec_witness :
    (validate_session
        [("tok", { username := "bob", created := 0, expires := 50, last_access := 0 })]
        "tok" 20).1 = some "bob" ∧
    (validate_session
        [("tok", { username := "bob", created := 0, expires := 50, last_access := 0 })]
        "fresh" 20).1 = none ∧
    (validate_session
        (create_session [] "carol" "fresh" 20).2 "fresh" 20).1 = some "carol" := by
  refine ⟨?_, ?_, ?_⟩
  · exact ((validate_session_spec
      [("tok", { username := "bob", created := 0, expires := 50, last_access := 0 })]
      "tok" 20).2.2.1
      { username := "bob", created := 0, expires := 50, last_access := 0 }
      rfl (by decide) (by decide)).1
  · have h := (validate_session_spec
      [("tok", { username := "bob", created := 0, expires := 50, last_access := 0 })]
      "fresh" 20).1
    cases hv : (validate_session
        [("tok", { username := "bob", created := 0, expires := 50, last_access := 0 })]
        "fresh" 20).1 with
    | none => rfl
    | some u =>
      exfalso
      have hsome := h.mp (by rw [hv]; rfl)
      rcases hsome with ⟨-, sess, hsess, -⟩
      simp [sessions_lookup] at hsess
  · exact (validate_session_spec [] "fresh" 20).2.2.2 "carol" (by decide)

/-! ## PAM / shadow authentication (src/agent/app/lib/pam_auth.py)

`PAMAuth.authenticate` checks the username syntax, existence, the
optional group allow-list, then tries the PAM backend and falls back to
the shadow backend. Backend availability and outcomes and the system
user database are environment oracles. -/

/-- Availability flags, the `ALLOWED_GROUPS` allow-list, and the system
and backend oracles `authenticate` consults. -/
structure AuthEnv where
  pam_available : Bool
  shadow_available : Bool
  allowed_groups : List String
  user_exists : String → Bool
  user_in_groups : String → List String → Bool
  pam_auth : String → String → Bool × String
  shadow_auth : String → String → Bool × String

/-- Username syntax check: after dropping underscores and dashes from
the username, the rest is nonempty and alphanumeric (Python
`str.isalnum` is False on the empty string). -/
def username_valid (username : String) : Bool :=
  let core := username.toList.filter (fun c => !(c == '_' || c == '-'))
  !core.isEmpty && core.all Char.isAlphanum

/-- `PAMAuth.authenticate`: empty credentials, invalid username syntax,
unknown user, group restriction, then PAM with shadow fallback; both
backends failing yields the generic denial. -/
def authenticate (env : AuthEnv) (username password : String) : Bool × String :=
  if username = "" ∨ password = "" then
    (false, "Nom d'utilisateur et mot de passe requis")
  else if username_valid username = false then
    (false, "Nom d'utilisateur invalide")
  else if env.user_exists username = false then
    (false, "Authentification échouée")
  else if env.allowed_groups ≠ [] ∧ env.user_in_groups username env.allowed_groups = false then
    (false, "Utilisateur non autorisé")
  else if env.pam_available = true ∧ (env.pam_auth username password).1 = true then
    (true, (env.pam_auth username password).2)
  else if env.shadow_available = true ∧ (env.shadow_auth username password).1 = true then
    (true, (env.shadow_auth username password).2)
  else (false, "Authentification échouée")

/-- Counterexample to C4 as stated: with a nonempty allow-list, a user
rejected by the group check gets "Utilisateur non autorisé" while an
unknown user gets "Authentification échouée" — two distinguishable
denial messages, so the group-check failure is revealed. -/
theorem authenticate_message_counterexample :
    (authenticate
        ⟨false, false, ["sudo"], fun u => u == "bob", fun _ _ => false,
          fun _ _ => (false, ""), fun _ _ => (false, "")⟩ "bob" "pw").1 = false ∧
    (authenticate
        ⟨false, false, ["sudo"], fun u => u == "bob", fun _ _ => false,
          fun _ _ => (false, ""), fun _ _ => (false, "")⟩ "eve" "pw").1 = false ∧
    (authenticate
        ⟨false, false, ["sudo"], fun u => u == "bob", fun _ _ => false,
          fun _ _ => (false, ""), fun _ _ => (false, "")⟩ "bob" "pw").2 ≠
      (authenticate
        ⟨false, false, ["sudo"], fun u => u == "bob", fun _ _ => false,
          fun _ _ => (false, ""), fun _ _ => (false, "")⟩ "eve" "pw").2 := by
  decide

/-- C4 (amended): unknown users, bad credentials and backend failures
are all reported with the one generic message "Authentification
échouée"; the group-restriction denial, however, uses a distinct
message (see the counterexample), as do empty credentials and invalid
username syntax. -/
theorem authenticate_generic_denial (env : AuthEnv) (username password : String)
    (hu : username ≠ "") (hp : password ≠ "") (hv : username_valid username = true) :
    (env.user_exists username = false →
      authenticate env username password = (false, "Authentification échouée")) ∧
    (env.user_exists username = true →
      (env.allowed_groups = [] ∨ env.user_in_groups username env.allowed_groups = true) →
      (env.pam_available = false ∨ (env.pam_auth username password).1 = false) →
      (env.shadow_available = false ∨ (env.shadow_auth username password).1 = false) →
      authenticate env username password = (false, "Authentification échouée")) := by
  have hne : ¬(username = "" ∨ password = "") := by tauto
  constructor
  · intro hex
    simp [authenticate, hne, hv, hex]
  · intro hex hgrp hpam hshadow
    have h4 : ¬(env.allowed_groups ≠ [] ∧
        env.user_in_groups username env.allowed_groups = false) := by
      rcases hgrp with h | h <;> simp [h]
    have h5 : ¬(env.pam_available = true ∧ (env.pam_auth username password).1 = true) := by
      rcases hpam with h | h <;> simp [h]
    have h6 : ¬(env.shadow_available = true ∧
        (env.shadow_auth username password).1 = true) := by
      rcases hshadow with h | h <;> simp [h]
    simp [authenticate, hne, hv, hex, h4, h5, h6]

/-- Witness for the amended C4 theorem: both an unknown user and a
failing pair of backends get the generic denial. -/
theorem authenticate_generic_denial_witness :
    authenticate
      ⟨false, false, [], fun _ => false, fun _ _ => false,
        fun _ _ => (false, ""), fun _ _ => (false, "")⟩ "bob" "pw" =
      (false, "Authentification échouée") ∧
    authenticate
      ⟨true, true, [], fun _ => true, fun _ _ => true,
        fun _ _ => (false, "bad"), fun _ _ => (false, "bad")⟩ "bob" "pw" =
      (false, "Authentification échouée") := by
  constructor
  · exact (authenticate_generic_denial _ "bob" "pw" (by decide) (by decide)
      (by decide)).1 rfl
  · exact (authenticate_generic_denial _ "bob" "pw" (by decide) (by decide)
      (by decide)).2 rfl (Or.inl rfl) (Or.inr rfl) (Or.inr rfl)

/-! ## Request signing (src/agent/app/lib/security.py)

`sign_request` and `verify_signature` build the canonical message
`timestamp.nonce.payload_json` and apply HMAC-SHA256 keyed by the
secret. The hash itself is an abstract keyed function `hmac`; payloads
enter as their canonical JSON dump, which sorted keys and fixed
separators make deterministic, so signer and verifier dump the same
dictionary to the same string. -/

/-- `sign_request`: returns the (X-Signature, X-Timestamp, X-Nonce)
header triple for the canonical message. -/
def sign_request (hmac : String → String → String) (payload_json : String)
    (secret_key nonce : String) (timestamp : Int) : String × Int × String :=
  let message := toString timestamp ++ "." ++ nonce ++ "." ++ payload_json
  (hmac secret_key message, timestamp, nonce)

/-- `verify_signature`: reject timestamps farther than `max_age` from
the current time, then recompute the signature and compare (the
constant-time comparison `hmac.compare_digest` is semantically string
equality). -/
def verify_signature (hmac : String → String → String) (payload_json signature : String)
    (timestamp : Int) (nonce secret_key : String) (max_age now : Int) : Bool :=
  if |now - timestamp| > max_age then false
  else
    let message := toString timestamp ++ "." ++ nonce ++ "." ++ payload_json
    signature == hmac secret_key message

/-- C3: for every payload, secret, nonce and timestamp, verifying the
signature produced by `sign_request` succeeds exactly when the
timestamp is within `max_age` of the current time; outside that window
every signature — the correct one included — is rejected. -/
theorem sign_verify_roundtrip (hmac : String → String → String)
    (payload_json secret_key nonce : String) (timestamp now max_age : Int) :
    (|now - timestamp| ≤ max_age →
      verify_signature hmac payload_json
        (sign_request hmac payload_json secret_key nonce timestamp).1
        timestamp nonce secret_key max_age now = true) ∧
    (|now - timestamp| > max_age → ∀ signature,
      verify_signature hmac payload_json signature timestamp nonce secret_key
        max_age now = false) := by
  constructor
  · intro hle
    have hnot : ¬ |now - timestamp| > max_age := not_lt.mpr hle
    simp [verify_signature, sign_request, hnot]
  · intro hgt signature
    simp [verify_signature, hgt]

/-- Witness for C3: a concrete in-window round-trip succeeds and a
concrete stale request is rejected whatever its signature. -/
theorem sign_verify_roundtrip_witness :
    verify_signature (fun k m => k ++ m) "p"
      (sign_request (fun k m => k ++ m) "p" "k" "n" 10).1 10 "n" "k" 300 20 = true ∧
    verify_signature (fun k m => k ++ m) "p" "forged" 10 "n" "k" 300 1000 = false := by
  constructor
  · exact (sign_verify_roundtrip (fun k m => k ++ m) "p" "k" "n" 10 20 300).1 (by decide)
  · exact (sign_verify_roundtrip (fun k m => k ++ m) "p" "k" "n" 10 1000 300).2
      (by decide) "forged"

/-! ## Self-update (src/agent/app/lib/updater.py)

`update_agent` downloads the bundle, extracts it into a fresh temporary
directory, requires a VERSION marker, then swaps the application
directory. The filesystem is embedded as the existence and abstract
contents of the install directory (`APP_DIR`) and its `.bak` backup;
directory operations are recorded as events. The post-swap dependency
install is best-effort (`check=False` inside try/except) and does not
touch these directories, so it is not an event here. -/

/-- Filesystem operations `update_agent` performs. -/
inductive UpdEvent where
  | download
  | extract
  | removeOldBackup
  | renameCurrentToBackup
  | renameNewToCurrent
  | removeBackup
  | removeTemp
deriving DecidableEq, Repr

/-- Install directory and backup directory, with abstract contents. -/
structure UpdFs where
  install_exists : Bool
  install_content : String
  backup_exists : Bool
  backup_content : String
deriving DecidableEq, Repr

/-- The downloaded bundle after extraction: whether a VERSION file is
present, its trimmed text, and the extracted tree. -/
structure Bundle where
  has_version : Bool
  version : String
  content : String
deriving DecidableEq, Repr

/-- `update_agent`: download, extract, require VERSION (error
otherwise), then remove any stale backup, rename the current install
directory to the backup path, rename the new directory into place, and
remove the backup and the temporary directory. -/
def update_agent (bundle : Bundle) (fs : UpdFs) :
    Except String String × UpdFs × List UpdEvent :=
  let trace := [UpdEvent.download, UpdEvent.extract]
  if bundle.has_version = false then
    (Except.error "Bundle missing VERSION file", fs, trace)
  else
    let new_version := bundle.version
    let step1 :=
      if fs.backup_exists then
        ({ fs with backup_exists := false, backup_content := "" },
          [UpdEvent.removeOldBackup])
      else (fs, ([] : List UpdEvent))
    let step2 :=
      if step1.1.install_exists then
        ({ step1.1 with
            install_exists := false, install_content := "",
            backup_exists := true, backup_content := step1.1.install_content },
          [UpdEvent.renameCurrentToBackup])
      else (step1.1, ([] : List UpdEvent))
    let fs3 := { step2.1 with install_exists := true, install_content := bundle.content }
    let step4 :=
      if fs3.backup_exists then
        ({ fs3 with backup_exists := false, backup_content := "" },
          [UpdEvent.removeBackup])
      else (fs3, ([] : List UpdEvent))
    (Except.ok new_version, step4.1,
      trace ++ step1.2 ++ step2.2 ++ [UpdEvent.renameNewToCurrent] ++ step4.2 ++
        [UpdEvent.removeTemp])

/-- C1: when the extracted bundle has no VERSION marker, `update_agent`
fails with the fatal "Bundle missing VERSION file" error, the install
directory is untouched (the whole filesystem state is returned
unchanged), and no rename into or out of the install path occurs. -/
theorem update_agent_missing_version (bundle : Bundle) (fs : UpdFs)
    (h : bundle.has_version = false) :
    update_agent bundle fs =
      (Except.error "Bundle missing VERSION file", fs,
        [UpdEvent.download, UpdEvent.extract]) ∧
    UpdEvent.renameCurrentToBackup ∉ (update_agent bundle fs).2.2 ∧
    UpdEvent.renameNewToCurrent ∉ (update_agent bundle fs).2.2 ∧
    (update_agent bundle fs).2.1 = fs := by
  refine ⟨by simp [update_agent, h], ?_, ?_, by simp [update_agent, h]⟩ <;>
    simp [update_agent, h]

/-- Witness for C1 at a concrete input: an installed agent and a bundle
lacking VERSION. -/
theorem update_agent_missing_version_witness :
    update_agent ⟨false, "", "tree"⟩ ⟨true, "v1", false, ""⟩ =
      (Except.error "Bundle missing VERSION file", ⟨true, "v1", false, ""⟩,
        [UpdEvent.download, UpdEvent.extract]) :=
  (update_agent_missing_version ⟨false, "", "tree"⟩ ⟨true, "v1", false, ""⟩ rfl).1

/-! ## Package-update cycle (src/agent/app/agent_runner.py)

`run_update` takes the exclusive non-blocking file lock; when it is
already held, `acquire_lock` returns None and `run_update` returns the
"already running" error at once. Otherwise it runs the ordered command
sequence of the detected package manager, stopping at the first
non-zero exit, and persists the outcome into the agent state. Lock
availability, the command list, subprocess exit codes, the measured
duration and the clock are environment inputs. -/

/-- Environment of one `run_update` call. -/
structure RunEnv where
  lock_available : Bool
  commands : List (List String)
  run_command : List String → Int
  duration : Nat
  now_iso : String

/-- The persisted agent state fields `run_update` touches. -/
structure AgentState where
  lastRunAt : Option String
  lastStatus : Option String
  lastExitCode : Option Int
  lastDurationSeconds : Option Nat
  lastUpdate : Option String
deriving DecidableEq, Repr

/-- The dictionary `run_update` returns. -/
structure RunResult where
  status : String
  exit_code : Int
  duration : Nat
  message : Option String
deriving DecidableEq, Repr

/-- Run the update commands in order, aborting at the first non-zero
exit; returns (status, exit code, commands actually executed). -/
def run_commands (run : List String → Int) :
    List (List String) → String × Int × List (List String)
  | [] => ("OK", 0, [])
  | c :: rest =>
    let code := run c
    if code ≠ 0 then ("ERROR", code, [c])
    else
      let r := run_commands run rest
      (r.1, r.2.1, c :: r.2.2)

/-- `run_update`: locked-out early return, unsupported-manager error,
or command execution with state persistence (and `lastUpdate` only on
success). Returns the result, the persisted state, and the commands
executed. -/
def run_update (env : RunEnv) (st : AgentState) :
    RunResult × AgentState × List (List String) :=
  if env.lock_available = false then
    ({ status := "ERROR", exit_code := 1, duration := 0,
       message := some "Update already running" }, st, [])
  else if env.commands = [] then
    ({ status := "ERROR", exit_code := 2, duration := env.duration,
       message := some "Unsupported package manager" },
      { st with
        lastRunAt := some env.now_iso, lastStatus := some "ERROR",
        lastExitCode := some 2, lastDurationSeconds := some env.duration }, [])
  else
    let r := run_commands env.run_command env.commands
    ({ status := r.1, exit_code := r.2.1, duration := env.duration, message := none },
      { st with
        lastRunAt := some env.now_iso, lastStatus := some r.1,
        lastExitCode := some r.2.1, lastDurationSeconds := some env.duration,
        lastUpdate := if r.1 = "OK" then some env.now_iso else st.lastUpdate },
      r.2.2)

/-- C2: when the exclusive lock is already held, `run_update` returns
at once with status ERROR, exit code 1 and the "Update already
running" message, executes no package-manager command, and leaves the
persisted agent state unchanged — so a second concurrent cycle never
runs. -/
theorem run_update_lock_held (env : RunEnv) (st : AgentState)
    (h : env.lock_available = false) :
    run_update env st =
      ({ status := "ERROR", exit_code := 1, duration := 0,
         message := some "Update already running" }, st, []) := by
  simp [run_update, h]

/-- Witness for C2 at a concrete input. -/
theorem run_update_lock_held_witness :
    run_update
      { lock_available := false, commands := [["apt-get", "update"]],
        run_command := fun _ => 0, duration := 5, now_iso := "2026-01-01T00:00:00Z" }
      { lastRunAt := none, lastStatus := none, lastExitCode := none,
        lastDurationSeconds := none, lastUpdate := none } =
      ({ status := "ERROR", exit_code := 1, duration := 0,
         message := some "Update already running" },
        { lastRunAt := none, lastStatus := none, lastExitCode := none,
          lastDurationSeconds := none, lastUpdate := none }, []) :=
  run_update_lock_held _ _ rfl

/-! ## Command dispatch (src/agent/app/agent_poller.py)

`handle_command` interprets one remote command against the persisted
config. Collaborator calls (`run_update`, `set_schedule`,
`update_agent`, `uninstall_agent`, log and system-info reads) enter as
environment oracles whose `Except.error` values stand for the Python
exceptions the enclosing try/except converts to ERROR results; effects
assigned before a raising call, as in the source, are preserved. The
embedding is a total function: dispatch never raises to the caller. -/

/-- The persisted schedule object. -/
structure Schedule where
  enabled : Bool
  dailyTime : String
deriving DecidableEq, Repr

/-- The agent configuration fields dispatch reads or writes, plus an
opaque remainder standing for the untouched keys. -/
structure Config where
  pollIntervalSeconds : Int
  schedule : Option Schedule
  rest : List (String × String)
deriving DecidableEq, Repr

/-- The typed fields a command payload may carry. -/
structure CmdPayload where
  enabled : Option Bool
  dailyTime : Option String
  pollIntervalSeconds : Option Int
  logName : Option String
deriving DecidableEq, Repr

/-- The payload used when the command carries none. -/
def CmdPayload.empty : CmdPayload :=
  { enabled := none, dailyTime := none, pollIntervalSeconds := none, logName := none }

/-- A remote command `{id, type, payload}`; the type field may be
absent. -/
structure Command where
  id : Option String
  type : Option String
  payload : Option CmdPayload
deriving DecidableEq, Repr

/-- The result payload dictionary each branch builds. -/
inductive ResultPayload where
  | empty
  | runNow (lastStatus : String) (lastExitCode : Int) (lastDurationSeconds : Nat)
  | schedule (s : Schedule)
  | version (v : String)
  | pollInterval (v : Int)
  | uninstalled
  | logs (names : List String)
  | logContent (content : String)
  | info (content : String)
deriving DecidableEq, Repr

/-- Collaborator outcomes for one dispatch. -/
structure DispatchEnv where
  run_update_result : RunResult
  set_schedule : Except String Unit
  update_agent_result : Except String String
  uninstall : Except String Unit
  list_logs : Except String (List String)
  read_log : String → Except String String
  collect_info : Except String String

/-- What `handle_command` produces: the reported
(status, result, errorMessage, restart, exitAfter) tuple, the
in-memory config afterwards, and every `save_config` call made. -/
structure HandleOutcome where
  status : String
  result : ResultPayload
  error_message : Option String
  restart : Bool
  exit_after : Bool
  config : Config
  saves : List Config
deriving DecidableEq, Repr

/-- The closed command-type enumeration of the dispatcher. -/
def known_command_types : List String :=
  ["RUN_NOW", "SET_SCHEDULE", "UPDATE_AGENT", "SET_POLL_INTERVAL", "UNINSTALL",
    "LIST_LOGS", "FETCH_LOG", "FETCH_INFO"]

/-- `handle_command`, one branch per command type. -/
def handle_command (env : DispatchEnv) (config : Config) (command : Command) :
    HandleOutcome :=
  match command.type with
  | some "RUN_NOW" =>
    let result := env.run_update_result
    let payload := ResultPayload.runNow result.status result.exit_code result.duration
    if result.status ≠ "OK" then
      { status := "ERROR", result := payload, error_message := result.message,
        restart := false, exit_after := false, config := config, saves := [] }
    else
      { status := "DONE", result := payload, error_message := none,
        restart := false, exit_after := false, config := config, saves := [] }
  | some "SET_SCHEDULE" =>
    let payload := command.payload.getD CmdPayload.empty
    let enabled := payload.enabled.getD false
    let daily_time :=
      match payload.dailyTime with
      | some t => if t = "" then "03:00" else t
      | none => "03:00"
    let config' := { config with schedule := some { enabled := enabled, dailyTime := daily_time } }
    match env.set_schedule with
    | Except.ok _ =>
      { status := "DONE",
        result := ResultPayload.schedule { enabled := enabled, dailyTime := daily_time },
        error_message := none, restart := false, exit_after := false,
        config := config', saves := [config'] }
    | Except.error e =>
      { status := "ERROR", result := ResultPayload.empty, error_message := some e,
        restart := false, exit_after := false, config := config', saves := [config'] }
  | some "UPDATE_AGENT" =>
    match env.update_agent_result with
    | Except.ok v =>
      { status := "DONE", result := ResultPayload.version v, error_message := none,
        restart := true, exit_after := false, config := config, saves := [] }
    | Except.error e =>
      { status := "ERROR", result := ResultPayload.empty, error_message := some e,
        restart := false, exit_after := false, config := config, saves := [] }
  | some "SET_POLL_INTERVAL" =>
    let payload := command.payload.getD CmdPayload.empty
    let poll_value := payload.pollIntervalSeconds.getD 0
    if poll_value ≤ 0 then
      { status := "ERROR", result := ResultPayload.empty,
        error_message := some "Invalid poll interval", restart := false,
        exit_after := false, config := config, saves := [] }
    else
      let config' := { config with pollIntervalSeconds := poll_value }
      { status := "DONE", result := ResultPayload.pollInterval poll_value,
        error_message := none, restart := true, exit_after := false,
        config := config', saves := [config'] }
  | some "UNINSTALL" =>
    match env.uninstall with
    | Except.ok _ =>
      { status := "DONE", result := ResultPayload.uninstalled, error_message := none,
        restart := false, exit_after := true, config := config, saves := [] }
    | Except.error e =>
      { status := "ERROR", result := ResultPayload.empty, error_message := some e,
        restart := false, exit_after := false, config := config, saves := [] }
  | some "LIST_LOGS" =>
    match env.list_logs with
    | Except.ok names =>
      { status := "DONE", result := ResultPayload.logs names, error_message := none,
        restart := false, exit_after := false, config := config, saves := [] }
    | Except.error e =>
      { status := "ERROR", result := ResultPayload.empty, error_message := some e,
        restart := false, exit_after := false, config := config, saves := [] }
  | some "FETCH_LOG" =>
    let log_name := (command.payload.getD CmdPayload.empty).logName
    match log_name with
    | none =>
      { status := "ERROR", result := ResultPayload.empty,
        error_message := some "Missing logName", restart := false,
        exit_after := false, config := config, saves := [] }
    | some n =>
      if n = "" then
        { status := "ERROR", result := ResultPayload.empty,
          error_message := some "Missing logName", restart := false,
          exit_after := false, config := config, saves := [] }
      else
        match env.read_log n with
        | Except.ok content =>
          { status := "DONE", result := ResultPayload.logContent content,
            error_message := none, restart := false, exit_after := false,
            config := config, saves := [] }
        | Except.error e =>
          { status := "ERROR", result := ResultPayload.empty, error_message := some e,
            restart := false, exit_after := false, config := config, saves := [] }
  | some "FETCH_INFO" =>
    match env.collect_info with
    | Except.ok content =>
      { status := "DONE", result := ResultPayload.info content, error_message := none,
        restart := false, exit_after := false, config := config, saves := [] }
    | Except.error e =>
      { status := "ERROR", result := ResultPayload.empty, error_message := some e,
        restart := false, exit_after := false, config := config, saves := [] }
  | other =>
    { status := "ERROR", result := ResultPayload.empty,
      error_message := some ("Unknown command " ++
        (match other with | some t => t | none => "None")),
      restart := false, exit_after := false, config := config, saves := [] }

/-- C9: a command whose type is outside the known enumeration (a
missing type included) yields status ERROR with the descriptive
"Unknown command ..." message, restart and exitAfter false, an empty
result, no config change and no save; `handle_command` is a total
function, so no exception reaches the caller. -/
theorem handle_command_unknown_type (env : DispatchEnv) (config : Config)
    (command : Command) (h : command.type ∉ known_command_types.map some) :
    handle_command env config command =
      { status := "ERROR", result := ResultPayload.empty,
        error_message := some ("Unknown command " ++
          (match command.type with | some t => t | none => "None")),
        restart := false, exit_after := false, config := config, saves := [] } := by
  obtain ⟨id, ty, pl⟩ := command
  cases ty with
  | none => rfl
  | some t =>
    replace h : some t ∉ known_command_types.map some := h
    simp only [known_command_types, List.map_cons, List.map_nil, List.mem_cons,
      List.not_mem_nil, or_false, Option.some.injEq] at h
    push_neg at h
    obtain ⟨h1, h2, h3, h4, h5, h6, h7, h8⟩ := h
    unfold handle_command
    split <;> simp_all

/-- Witness for C9: dispatching a command of type "BOGUS". -/
theorem handle_command_unknown_type_witness :
    handle_command
      { run_update_result := { status := "OK", exit_code := 0, duration := 0, message := none },
        set_schedule := Except.ok (), update_agent_result := Except.ok "v2",
        uninstall := Except.ok (), list_logs := Except.ok [],
        read_log := fun _ => Except.ok "", collect_info := Except.ok "" }
      { pollIntervalSeconds := 60, schedule := none, rest := [] }
      { id := some "c1", type := some "BOGUS", payload := none } =
      { status := "ERROR", result := ResultPayload.empty,
        error_message := some "Unknown command BOGUS", restart := false,
        exit_after := false,
        config := { pollIntervalSeconds := 60, schedule := none, rest := [] },
        saves := [] } :=
  handle_command_unknown_type _ _ _ (by decide)

/-- C8: a SET_POLL_INTERVAL command whose poll-interval value is
missing or not strictly positive yields status ERROR with restart
false and neither changes nor saves the config; a strictly positive
value is persisted (one save of the updated config) with restart
true. -/
theorem handle_command_set_poll_interval (env : DispatchEnv) (config : Config)
    (command : Command) (hty : command.type = some "SET_POLL_INTERVAL") :
    (((command.payload.getD CmdPayload.empty).pollIntervalSeconds.getD 0) ≤ 0 →
      handle_command env config command =
        { status := "ERROR", result := ResultPayload.empty,
          error_message := some "Invalid poll interval", restart := false,
          exit_after := false, config := config, saves := [] }) ∧
    (∀ v : Int, 0 < v →
      (command.payload.getD CmdPayload.empty).pollIntervalSeconds.getD 0 = v →
      handle_command env config command =
        { status := "DONE", result := ResultPayload.pollInterval v,
          error_message := none, restart := true, exit_after := false,
          config := { config with pollIntervalSeconds := v },
          saves := [{ config with pollIntervalSeconds := v }] }) := by
  obtain ⟨id, ty, pl⟩ := command
  replace hty : ty = some "SET_POLL_INTERVAL" := hty
  subst hty
  constructor
  · intro hle
    replace hle : (pl.getD CmdPayload.empty).pollIntervalSeconds.getD 0 ≤ 0 := hle
    simp only [handle_command]
    rw [if_pos hle]
  · intro v hv hev
    replace hev : (pl.getD CmdPayload.empty).pollIntervalSeconds.getD 0 = v := hev
    simp only [handle_command, hev]
    rw [if_neg (by omega)]

/-- Witness for C8: a non-positive interval is rejected without a save
and a positive one is persisted with restart requested. -/
theorem handle_command_set_poll_interval_witness :
    handle_command
      { run_update_result := { status := "OK", exit_code := 0, duration := 0, message := none },
        set_schedule := Except.ok (), update_agent_result := Except.ok "v2",
        uninstall := Except.ok (), list_logs := Except.ok [],
        read_log := fun _ => Except.ok "", collect_info := Except.ok "" }
      { pollIntervalSeconds := 60, schedule := none, rest := [] }
      { id := some "c2", type := some "SET_POLL_INTERVAL",
        payload := some { enabled := none, dailyTime := none,
                          pollIntervalSeconds := some (-5), logName := none } } =
      { status := "ERROR", result := ResultPayload.empty,
        error_message := some "Invalid poll interval", restart := false,
        exit_after := false,
        config := { pollIntervalSeconds := 60, schedule := none, rest := [] },
        saves := [] } ∧
    handle_command
      { run_update_result := { status := "OK", exit_code := 0, duration := 0, message := none },
        set_schedule := Except.ok (), update_agent_result := Except.ok "v2",
        uninstall := Except.ok (), list_logs := Except.ok [],
        read_log := fun _ => Except.ok "", collect_info := Except.ok "" }
      { pollIntervalSeconds := 60, schedule := none, rest := [] }
      { id := some "c3", type := some "SET_POLL_INTERVAL",
        payload := some { enabled := none, dailyTime := none,
                          pollIntervalSeconds := some 30, logName := none } } =
      { status := "DONE", result := ResultPayload.pollInterval 30,
        error_message := none, restart := true, exit_after := false,
        config := { pollIntervalSeconds := 30, schedule := none, rest := [] },
        saves := [{ pollIntervalSeconds := 30, schedule := none, rest := [] }] } := by
  constructor
  · exact (handle_command_set_poll_interval _ _ _ rfl).1 (by decide)
  · exact (handle_command_set_poll_interval _ _ _ rfl).2 30 (by decide) rfl

end AAUL
